import Mathlib

/-!
# Verification of the paceAITester statement parser and call matcher

A shallow embedding of the repository's five source files:

* `datatypes.py` — the `Statement` dataclass hierarchy;
* `parser.py` — `StatementParser`: normalization of raw syntax nodes into
  `Statement` records, and `retrieve_variable_values`;
* `utils.py` — the statement query engine (`find_function_calls`,
  `find_import_from_statement`, ...) and `run_verification`;
* `verify_helpers.py` — `unparse` (a backport), `extract_python_details`,
  `find_function_call`, `retrieve_variable_values`;
* `validator.py` — `FunctionCallSpec` and `CodeValidator`.

Python-level machinery that the repository consumes as a black box
(the `ast` module's parse trees, `ast.walk`, `ast.unparse`,
`ast.literal_eval`, and `eval`) is modelled as an executable fragment
covering the constructs appearing in this development; each such
definition says so in its doc comment.
-/

namespace PaceAITester

/-! ## Raw syntax trees (fragment of the CPython `ast` module) -/

/-- Literal constants (fragment of `ast.Constant` values: ints, strings,
booleans, `None`; floats/complex/bytes are outside the modelled fragment). -/
inductive PyLit where
  | intL (n : Int)
  | strL (s : String)
  | boolL (b : Bool)
  | noneL
deriving Repr, DecidableEq

/-- Binary operators (fragment: the arithmetic operators that both
`verify_helpers.unparse` and the resolver examples exercise). -/
inductive PyOp where
  | add
  | sub
  | mul
deriving Repr, DecidableEq

/-- Raw expression nodes (fragment of the `ast` expression grammar:
`Constant`, `Name`, `Attribute`, `BinOp`, `Call` with positional and
keyword arguments, `Tuple`, `List`). -/
inductive PyExpr where
  | const (l : PyLit)
  | name (id : String)
  | attr (value : PyExpr) (a : String)
  | binop (op : PyOp) (l r : PyExpr)
  | call (func : PyExpr) (args : List PyExpr) (keywords : List (String × PyExpr))
  | tupleE (elts : List PyExpr)
  | listE (elts : List PyExpr)
deriving Repr

/-- Raw statement nodes (fragment of the `ast` statement grammar: the kinds
`StatementParser._process_statement` dispatches on, plus `other` for any
other statement class, carrying only its class name as the code itself
does for `GenericStatement`).  `imp`/`impFrom` carry the `ast.alias`
pairs `(name, asname)`. -/
inductive RawStmt where
  | imp (names : List (String × Option String))
  | impFrom (module : Option String) (names : List (String × Option String)) (level : Nat)
  | classDef (nm : String) (bases : List PyExpr) (body : List RawStmt)
  | funcDef (nm : String) (args : List String) (body : List RawStmt)
  | forS (target : PyExpr) (iter : PyExpr) (body : List RawStmt) (orelse : List RawStmt)
  | withS (items : List (PyExpr × Option PyExpr)) (body : List RawStmt)
  | ifS (test : PyExpr) (body : List RawStmt) (orelse : List RawStmt)
  | assign (targets : List PyExpr) (value : PyExpr)
  | exprS (value : PyExpr)
  | other (typeName : String)
deriving Repr

/-- Python `repr` of a literal, as both `ast.unparse` and the
`verify_helpers.unparse` backport render constants (fragment: strings are
rendered with single quotes). -/
def pyRepr : PyLit → String
  | .intL n => toString n
  | .strL s => "\x27" ++ s ++ "\x27"
  | .boolL true => "True"
  | .boolL false => "False"
  | .noneL => "None"

/-- Source text of a binary operator, as in
`verify_helpers.unparse._Unparser.operator`. -/
def opText : PyOp → String
  | .add => "+"
  | .sub => "-"
  | .mul => "*"

mutual

/-- Modelled fragment of `ast.unparse`, the external expression renderer
consumed by `parser.py` (precedence parenthesisation inside `binop` is
elided; no claim depends on it).  Keyword arguments render as `k=v`. -/
def ast_unparse : PyExpr → String
  | .const l => pyRepr l
  | .name id => id
  | .attr value a => ast_unparse value ++ "." ++ a
  | .binop op l r => ast_unparse l ++ " " ++ opText op ++ " " ++ ast_unparse r
  | .call func args keywords =>
      ast_unparse func ++ "(" ++
        String.intercalate ", " (ast_unparseList args ++ ast_unparseKw keywords) ++ ")"
  | .tupleE elts => "(" ++ String.intercalate ", " (ast_unparseList elts) ++ ")"
  | .listE elts => "[" ++ String.intercalate ", " (ast_unparseList elts) ++ "]"

def ast_unparseList : List PyExpr → List String
  | [] => []
  | e :: rest => ast_unparse e :: ast_unparseList rest

def ast_unparseKw : List (String × PyExpr) → List String
  | [] => []
  | (k, v) :: rest => (k ++ "=" ++ ast_unparse v) :: ast_unparseKw rest

end

mutual

/-- `verify_helpers.unparse`: the repository's own `_Unparser` backport.
It renders `Name`, `Constant` (via `repr`), `BinOp`, `Attribute` and
`Call`; a `Call`'s keyword arguments are *not* rendered, and a node with
no dedicated visitor (e.g. `Tuple`) falls through to `generic_visit`,
which just concatenates the renderings of its children. -/
def unparse : PyExpr → String
  | .const l => pyRepr l
  | .name id => id
  | .attr value a => unparse value ++ "." ++ a
  | .binop op l r => unparse l ++ " " ++ opText op ++ " " ++ unparse r
  | .call func args _keywords =>
      unparse func ++ "(" ++ String.intercalate ", " (unparseList args) ++ ")"
  | .tupleE elts => String.join (unparseList elts)
  | .listE elts => String.join (unparseList elts)

def unparseList : List PyExpr → List String
  | [] => []
  | e :: rest => unparse e :: unparseList rest

end

/-! ## `ast.walk` (fragment)

`ast.walk` performs a breadth-first traversal of every node of the tree.
The repository only ever tests walked nodes with `isinstance` against
*statement* classes, and Python statements nest only through the
`body`/`orelse` fields modelled here, so the statement-level projection
below visits exactly the statements the real `ast.walk` yields (the
`Module` node itself and expression nodes match none of the repository's
`isinstance` tests). -/

/-- The child statements of a raw statement (statement-level projection of
`ast.iter_child_nodes`). -/
def childStmts : RawStmt → List RawStmt
  | .classDef _ _ body => body
  | .funcDef _ _ body => body
  | .forS _ _ body orelse => body ++ orelse
  | .withS _ body => body
  | .ifS _ body orelse => body ++ orelse
  | _ => []

mutual

/-- Size measure used to justify termination of the breadth-first walk. -/
def RawStmt.msize : RawStmt → Nat
  | .classDef _ _ body => 1 + msizeList body
  | .funcDef _ _ body => 1 + msizeList body
  | .forS _ _ body orelse => 1 + msizeList body + msizeList orelse
  | .withS _ body => 1 + msizeList body
  | .ifS _ body orelse => 1 + msizeList body + msizeList orelse
  | _ => 1

def msizeList : List RawStmt → Nat
  | [] => 0
  | s :: rest => RawStmt.msize s + msizeList rest

end

theorem msizeList_append (a b : List RawStmt) :
    msizeList (a ++ b) = msizeList a + msizeList b := by
  induction a with
  | nil => simp [msizeList]
  | cons s rest ih => simp [msizeList, ih]; omega

theorem msize_pos (s : RawStmt) : 0 < s.msize := by
  cases s <;> simp [RawStmt.msize]

theorem childStmts_msize_lt (s : RawStmt) : msizeList (childStmts s) < s.msize := by
  cases s <;> simp [childStmts, RawStmt.msize, msizeList, msizeList_append]

/-- Modelled fragment of `ast.walk`: breadth-first traversal with a queue,
yielding every statement of the tree, outermost first. -/
def ast_walk (todo : List RawStmt) : List RawStmt :=
  match todo with
  | [] => []
  | s :: rest => s :: ast_walk (rest ++ childStmts s)
termination_by msizeList todo
decreasing_by
  simp [msizeList, msizeList_append]
  have := childStmts_msize_lt s
  omega

theorem ast_walk_nil : ast_walk [] = [] := by
  simp [ast_walk]

theorem ast_walk_cons (s : RawStmt) (rest : List RawStmt) :
    ast_walk (s :: rest) = s :: ast_walk (rest ++ childStmts s) := by
  rw [ast_walk]

/-- Every statement of the queue appears in the walk. -/
theorem mem_ast_walk_of_mem (l : List RawStmt) (s : RawStmt) (hs : s ∈ l) :
    s ∈ ast_walk l := by
  generalize hn : msizeList l = n
  induction n using Nat.strong_induction_on generalizing l with
  | _ n ih =>
    cases l with
    | nil => cases hs
    | cons x rest =>
      rw [ast_walk_cons]
      rcases List.mem_cons.mp hs with h | h
      · exact h ▸ List.mem_cons_self x _
      · refine List.mem_cons_of_mem x (ih (msizeList (rest ++ childStmts x)) ?_ _ (List.mem_append_left _ h) rfl)
        subst hn
        simp [msizeList, msizeList_append]
        have := childStmts_msize_lt x
        have := msize_pos x
        omega

/-- The walk reaches the children of every statement of the queue: this is
the recursion into nested `body`/`orelse` blocks that `ast.walk` performs. -/
theorem child_mem_ast_walk (l : List RawStmt) (s c : RawStmt)
    (hs : s ∈ l) (hc : c ∈ childStmts s) : c ∈ ast_walk l := by
  generalize hn : msizeList l = n
  induction n using Nat.strong_induction_on generalizing l with
  | _ n ih =>
    cases l with
    | nil => cases hs
    | cons x rest =>
      rw [ast_walk_cons]
      have hlt : msizeList (rest ++ childStmts x) < msizeList (x :: rest) := by
        simp [msizeList, msizeList_append]
        have := childStmts_msize_lt x
        have := msize_pos x
        omega
      rcases List.mem_cons.mp hs with h | h
      · refine List.mem_cons_of_mem x
          (mem_ast_walk_of_mem _ _ (List.mem_append_right _ ?_))
        rw [← h]
        exact hc
      · exact List.mem_cons_of_mem x
          (ih (msizeList (rest ++ childStmts x)) (hn ▸ hlt) _ (List.mem_append_left _ h) rfl)

/-! ## Normalized statements (`datatypes.py`)

One Lean constructor per `Statement` dataclass.  Field names and contents
follow the dataclass declarations. -/

/-- `datatypes.FunctionCallStatement` (lines 152–165): the dataclass
declares exactly two fields, `func` and `args`.  It declares **no**
`kwargs` field — this matters for the normalizer below. -/
structure FunctionCallStatement where
  func : String
  args : List String
deriving Repr, DecidableEq

/-- The value of `datatypes.AssignStatement.value`:
`Union[str, FunctionCallStatement]`. -/
inductive AssignValue where
  | strV (s : String)
  | callV (c : FunctionCallStatement)
deriving Repr, DecidableEq

/-- The `Statement` dataclass hierarchy of `datatypes.py`. -/
inductive Statement where
  | importS (names : List String) (al : Option String)
  | importFrom (module : String) (names : List String) (al : Option String) (level : Nat)
  | classDef (nm : String) (bases : List String) (body : List Statement)
  | funcDef (nm : String) (args : List String) (body : List Statement)
  | forS (target : String) (iter : String) (body : List Statement) (orelse : List Statement)
  | withS (items : List (String × Option String)) (body : List Statement)
  | ifS (test : String) (body : List Statement) (orelse : List Statement)
  | funcCall (c : FunctionCallStatement)
  | assign (targets : List String) (value : AssignValue)
  | exprS (value : String)
  | generic (typeName : String)
deriving Repr

/-! ## The statement normalizer (`parser.py`, `StatementParser`)

`_process_statement` returns `Optional[Statement]`, but every branch of
the source returns an actual statement, and `parse`'s `if stmt:` filter
never drops anything (dataclass instances are truthy); the embedding
therefore returns `Statement` under `Except`.  The `Except` layer models
Python exceptions escaping the call. -/

/-- A raised Python exception. -/
inductive PyErr where
  | typeError (msg : String)
deriving Repr, DecidableEq

/-- The field names declared by the `FunctionCallStatement` dataclass in
`datatypes.py` (its generated `__init__` accepts exactly these keywords). -/
def functionCallStatementFields : List String := ["func", "args"]

/-- The keyword arguments `StatementParser._parse_function_call` passes to
the `FunctionCallStatement` constructor:
`FunctionCallStatement(func=func, args=args, kwargs=kwargs)`. -/
def parseFunctionCallPassedKwargs : List String := ["func", "args", "kwargs"]

/-- Python dataclass `__init__` keyword-argument acceptance: every passed
keyword must name a declared field, otherwise the call raises `TypeError`. -/
def dataclassAccepts (declared passed : List String) : Bool :=
  passed.all fun k => declared.contains k

/-- `StatementParser._parse_function_call` (parser.py lines 209–214): it
unparses the function, the positional arguments and the keyword
arguments, then calls
`FunctionCallStatement(func=func, args=args, kwargs=kwargs)`.
The constructed dataclass only accepts the declared fields, so the call
raises `TypeError` whenever a passed keyword is not a field. -/
def parse_function_call (func : PyExpr) (args : List PyExpr)
    (keywords : List (String × PyExpr)) : Except PyErr FunctionCallStatement :=
  let funcText := ast_unparse func
  let argTexts := ast_unparseList args
  let _kwargTexts := keywords.map fun kv => (kv.1, ast_unparse kv.2)
  if dataclassAccepts functionCallStatementFields parseFunctionCallPassedKwargs then
    .ok { func := funcText, args := argTexts }
  else
    .error (.typeError
      "FunctionCallStatement.__init__() got an unexpected keyword argument: kwargs")

/-- The alias choice of `_parse_import_statement` / `_parse_importfrom_statement`:
`node.names[0].asname if node.names and node.names[0].asname else None`. -/
def aliasOfNames (names : List (String × Option String)) : Option String :=
  match names with
  | [] => none
  | (_, asname) :: _ => asname

/-- The target-flattening loop of `_parse_assign_statement`
(parser.py lines 192–201): a `Tuple` target contributes one entry per
element (`elt.id` for `Name` elements, `ast.unparse(elt)` otherwise); any
other target contributes `ast.unparse(target)`.  Note the source checks
`ast.Tuple` only, so an `ast.List` target is unparsed whole. -/
def assignTargets (targets : List PyExpr) : List String :=
  targets.foldl
    (fun acc t =>
      match t with
      | .tupleE elts =>
          acc ++ elts.map fun e =>
            match e with
            | .name id => id
            | _ => ast_unparse e
      | _ => acc ++ [ast_unparse t])
    []

mutual

/-- `StatementParser._process_statement` (parser.py lines 96–118):
dispatch on the raw node's kind.  A bare expression whose value is a
`Call` goes to `_parse_function_call` first; any other bare expression
becomes `ExprStatement`; the recognized statement kinds map to their
parsers (recursively normalizing bodies); anything else becomes
`GenericStatement` with the node's class name. -/
def process_statement : RawStmt → Except PyErr Statement
  | .exprS value =>
      match value with
      | .call f args kws =>
          match parse_function_call f args kws with
          | .error e => .error e
          | .ok c => .ok (.funcCall c)
      | _ => .ok (.exprS (ast_unparse value))
  | .imp names => .ok (.importS (names.map Prod.fst) (aliasOfNames names))
  | .impFrom module names level =>
      .ok (.importFrom (module.getD "") (names.map Prod.fst) (aliasOfNames names) level)
  | .classDef nm bases body =>
      match process_block body with
      | .error e => .error e
      | .ok b => .ok (.classDef nm (bases.map ast_unparse) b)
  | .funcDef nm args body =>
      match process_block body with
      | .error e => .error e
      | .ok b => .ok (.funcDef nm args b)
  | .forS target iter body orelse =>
      match process_block body with
      | .error e => .error e
      | .ok b =>
          match process_block orelse with
          | .error e => .error e
          | .ok o => .ok (.forS (ast_unparse target) (ast_unparse iter) b o)
  | .withS items body =>
      match process_block body with
      | .error e => .error e
      | .ok b =>
          .ok (.withS (items.map fun it => (ast_unparse it.1, it.2.map ast_unparse)) b)
  | .ifS test body orelse =>
      match process_block body with
      | .error e => .error e
      | .ok b =>
          match process_block orelse with
          | .error e => .error e
          | .ok o => .ok (.ifS (ast_unparse test) b o)
  | .assign targets value =>
      match value with
      | .call f args kws =>
          match parse_function_call f args kws with
          | .error e => .error e
          | .ok c => .ok (.assign (assignTargets targets) (.callV c))
      | _ => .ok (.assign (assignTargets targets) (.strV (ast_unparse value)))
  | .other typeName => .ok (.generic typeName)

/-- A normalized body: each child through `_process_statement`, keeping
non-`None` results (none are `None`; see `process_statement`).  Any
exception raised while processing a child propagates. -/
def process_block : List RawStmt → Except PyErr (List Statement)
  | [] => .ok []
  | s :: rest =>
      match process_statement s with
      | .error e => .error e
      | .ok st =>
          match process_block rest with
          | .error e => .error e
          | .ok sts => .ok (st :: sts)

end

/-- `StatementParser.parse`: normalize each top-level node of the module
body in order. -/
def parse (moduleBody : List RawStmt) : Except PyErr (List Statement) :=
  process_block moduleBody

/-! ## The statement query engine (`utils.py`) -/

/-- The `is_function_call_statement` test of `utils.find_function_calls`. -/
def is_function_call_for (function_name : String) : Statement → Bool
  | .funcCall c => c.func == function_name
  | _ => false

/-- The `is_assign_statement` test of `utils.find_function_calls`. -/
def is_assign_call_for (function_name : String) : Statement → Bool
  | .assign _ (.callV c) => c.func == function_name
  | _ => false

/-- `utils.find_function_calls` (utils.py lines 76–103): keep, in order,
every statement of the given list that is a call to `function_name` or an
assignment whose value is such a call.  It iterates only over the list it
is given — it does not recurse into nested bodies. -/
def find_function_calls (statements : List Statement) (function_name : String) :
    List Statement :=
  statements.filter fun statement =>
    is_function_call_for function_name statement ||
      is_assign_call_for function_name statement

/-- Python `set(a) == set(b)` on lists of strings. -/
def sameSet (a b : List String) : Bool :=
  (a.all fun x => b.contains x) && (b.all fun x => a.contains x)

/-- The match condition of `utils.find_import_from_statement`: an
`ImportFromStatement` whose `module` equals the requested name, whose
`names` form the same set as `submodules`, and whose `alias` equals the
requested alias. -/
def importFromMatches (module_name : String) (submodules : List String)
    (al2 : Option String) : Statement → Bool
  | .importFrom module names al _ =>
      module == module_name && sameSet submodules names && al == al2
  | _ => false

/-- `utils.find_import_from_statement` (utils.py lines 174–201): the first
statement of the list satisfying `importFromMatches`, else `None`. -/
def find_import_from_statement (statements : List Statement)
    (module_name : String) (submodules : List String) (al : Option String) :
    Option Statement :=
  match statements with
  | [] => none
  | s :: rest =>
      if importFromMatches module_name submodules al s then some s
      else find_import_from_statement rest module_name submodules al

/-! ## Python runtime values (fragment)

Values that the variable resolver can produce: the literal kinds of
`PyLit`, containers, and builtin function objects (which `eval` can reach
because an empty globals dict is populated with `__builtins__`). -/

inductive PyVal where
  | int (n : Int)
  | str (s : String)
  | bool (b : Bool)
  | pynone
  | tuple (elts : List PyVal)
  | list (elts : List PyVal)
  | builtin (nm : String)
deriving Repr

mutual

/-- Structural (Python `==`-style) equality on modelled values. -/
def PyVal.beq : PyVal → PyVal → Bool
  | .int a, .int b => a == b
  | .str a, .str b => a == b
  | .bool a, .bool b => a == b
  | .pynone, .pynone => true
  | .tuple a, .tuple b => PyVal.beqList a b
  | .list a, .list b => PyVal.beqList a b
  | .builtin a, .builtin b => a == b
  | _, _ => false

def PyVal.beqList : List PyVal → List PyVal → Bool
  | [], [] => true
  | x :: xs, y :: ys => PyVal.beq x y && PyVal.beqList xs ys
  | _, _ => false

end

/-- The value of a literal constant. -/
def litVal : PyLit → PyVal
  | .intL n => .int n
  | .strL s => .str s
  | .boolL b => .bool b
  | .noneL => .pynone

/-- Assoc-list lookup with Python-dict semantics (first matching key). -/
def lookupVar (vars : List (String × PyVal)) (k : String) : Option PyVal :=
  match vars with
  | [] => none
  | (k', v) :: rest => if k' == k then some v else lookupVar rest k

/-- Python-dict update: overwrite the existing binding in place, else
append (insertion order preserved, as for a real `dict`). -/
def updateVar (vars : List (String × PyVal)) (k : String) (v : PyVal) :
    List (String × PyVal) :=
  match vars with
  | [] => [(k, v)]
  | (k', v') :: rest =>
      if k' == k then (k, v) :: rest else (k', v') :: updateVar rest k v

/-- Modelled fragment of the builtin namespace.  The resolver calls
`eval(expression_code, {}, variables)`; CPython populates an empty
globals dict with `__builtins__`, so builtin names resolve after the
locals (`variables`) lookup fails.  Only the builtins exercised in this
development are modelled. -/
def lookupBuiltin (nm : String) : Option PyVal :=
  if nm == "abs" then some (.builtin "abs")
  else if nm == "len" then some (.builtin "len")
  else none

/-- Application of a modelled builtin to evaluated arguments. -/
def applyBuiltin (nm : String) (args : List PyVal) : Except String PyVal :=
  match nm, args with
  | "abs", [.int n] => .ok (.int (if n < 0 then -n else n))
  | "len", [.str s] => .ok (.int s.length)
  | "len", [.tuple l] => .ok (.int l.length)
  | "len", [.list l] => .ok (.int l.length)
  | _, _ => .error ("bad builtin call: " ++ nm)

/-- Application of a callable value. -/
def applyCallable (f : PyVal) (args : List PyVal) : Except String PyVal :=
  match f with
  | .builtin nm => applyBuiltin nm args
  | _ => .error "object is not callable"

/-- A binary operation on values (fragment: `+` on ints, strings and
lists, `-`/`*` on ints; anything else raises `TypeError`). -/
def applyBinop (op : PyOp) (a b : PyVal) : Except String PyVal :=
  match op, a, b with
  | .add, .int x, .int y => .ok (.int (x + y))
  | .add, .str x, .str y => .ok (.str (x ++ y))
  | .add, .list x, .list y => .ok (.list (x ++ y))
  | .sub, .int x, .int y => .ok (.int (x - y))
  | .mul, .int x, .int y => .ok (.int (x * y))
  | _, _, _ => .error "unsupported operand type(s)"

mutual

/-- Modelled fragment of CPython `eval` on a compiled expression, as the
resolver invokes it: `eval(compile(ast.Expression(v), "<ast>", "eval"),
{}, variables)`.  Name lookup tries the locals mapping (`variables`),
then the globals dict — empty except for the injected `__builtins__`.
Evaluation is strict and left-to-right; any failure (unbound name,
uncallable object, bad operand types, keyword arguments to a modelled
builtin, attribute access outside the fragment) raises, modelled as
`Except.error`. -/
def evalExpr (env : List (String × PyVal)) : PyExpr → Except String PyVal
  | .const l => .ok (litVal l)
  | .name id =>
      match lookupVar env id with
      | some v => .ok v
      | none =>
          match lookupBuiltin id with
          | some v => .ok v
          | none => .error ("name " ++ id ++ " is not defined")
  | .attr value a =>
      match evalExpr env value with
      | .error e => .error e
      | .ok _ => .error ("attribute access outside modelled fragment: " ++ a)
  | .binop op l r =>
      match evalExpr env l with
      | .error e => .error e
      | .ok vl =>
          match evalExpr env r with
          | .error e => .error e
          | .ok vr => applyBinop op vl vr
  | .call func args keywords =>
      match evalExpr env func with
      | .error e => .error e
      | .ok vf =>
          match evalList env args with
          | .error e => .error e
          | .ok vs =>
              match keywords with
              | [] => applyCallable vf vs
              | _ :: _ => .error "keyword arguments outside modelled fragment"
  | .tupleE elts =>
      match evalList env elts with
      | .error e => .error e
      | .ok vs => .ok (.tuple vs)
  | .listE elts =>
      match evalList env elts with
      | .error e => .error e
      | .ok vs => .ok (.list vs)

def evalList (env : List (String × PyVal)) : List PyExpr → Except String (List PyVal)
  | [] => .ok []
  | e :: rest =>
      match evalExpr env e with
      | .error m => .error m
      | .ok v =>
          match evalList env rest with
          | .error m => .error m
          | .ok vs => .ok (v :: vs)

end

mutual

/-- Modelled fragment of `ast.literal_eval`: succeeds exactly on literal
structure (constants and tuple/list displays of literals), yielding the
literal value; `none` models the `ValueError` raised on any other node. -/
def literal_eval : PyExpr → Option PyVal
  | .const l => some (litVal l)
  | .tupleE elts => (literal_evalList elts).map .tuple
  | .listE elts => (literal_evalList elts).map .list
  | _ => none

def literal_evalList : List PyExpr → Option (List PyVal)
  | [] => some []
  | e :: rest =>
      match literal_eval e with
      | none => none
      | some v =>
          match literal_evalList rest with
          | none => none
          | some vs => some (v :: vs)

end

mutual

/-- The free names of an expression (used to state when `eval` must fail). -/
def freeNames : PyExpr → List String
  | .const _ => []
  | .name id => [id]
  | .attr value _ => freeNames value
  | .binop _ l r => freeNames l ++ freeNames r
  | .call func args keywords =>
      freeNames func ++ freeNamesList args ++ freeNamesKw keywords
  | .tupleE elts => freeNamesList elts
  | .listE elts => freeNamesList elts

def freeNamesList : List PyExpr → List String
  | [] => []
  | e :: rest => freeNames e ++ freeNamesList rest

def freeNamesKw : List (String × PyExpr) → List String
  | [] => []
  | (_, v) :: rest => freeNames v ++ freeNamesKw rest

end

/-! ## The variable value resolver

`StatementParser.retrieve_variable_values` (parser.py lines 69–94) and
`verify_helpers.retrieve_variable_values` (lines 142–162) are the same
logic: walk the tree; for each `Assign` node and each `Name` target, try
`ast.literal_eval` on the right-hand side; on `ValueError` try
`eval(..., {}, variables)`; on any exception record the string
`"Unresolvable dynamic value"`. -/

/-- The sentinel the resolver stores when a value cannot be computed:
the *string* `"Unresolvable dynamic value"`. -/
def unresolvableSentinel : PyVal := .str "Unresolvable dynamic value"

/-- One `Assign` node's contribution to the variable table: the
`for target in node.targets` loop body. -/
def resolveAssign (vars : List (String × PyVal)) (targets : List PyExpr)
    (value : PyExpr) : List (String × PyVal) :=
  targets.foldl
    (fun vs t =>
      match t with
      | .name id =>
          match literal_eval value with
          | some v => updateVar vs id v
          | none =>
              match evalExpr vs value with
              | .ok v => updateVar vs id v
              | .error _ => updateVar vs id unresolvableSentinel
      | _ => vs)
    vars

/-- `retrieve_variable_values`: fold the resolver over every `Assign`
statement that `ast.walk` yields, in walk order. -/
def retrieve_variable_values (moduleBody : List RawStmt) : List (String × PyVal) :=
  (ast_walk moduleBody).foldl
    (fun vars s =>
      match s with
      | .assign targets value => resolveAssign vars targets value
      | _ => vars)
    []

/-! ## `verify_helpers.extract_python_details` and the call matcher -/

/-- The `'variable'` entry of an extracted call dict: `None`, a single
name string, or a tuple of target texts. -/
inductive PyVariable where
  | noneV
  | nameV (s : String)
  | tupleV (ss : List String)
deriving Repr, DecidableEq

/-- One extracted call dict (`verify_helpers.extract_python_details`):
`{'variable': ..., 'function': ..., 'args': ..., 'kwargs': ...}`.
`var` embeds the dict's `'variable'` entry (`variable` is a Lean keyword). -/
structure CallLine where
  var : PyVariable
  function : String
  args : List String
  kwargs : List (String × String)
deriving Repr, DecidableEq

/-- The `'variable'` entry computed for an `Assign`-with-`Call` node
(verify_helpers.py lines 85–91): a `Tuple`/`List` first target yields the
tuple of unparsed elements; a `Name` first target yields its id, or
`None` when the id is `_`; any other first target yields `None`.
(`node.targets[0]` always exists in a real tree; the empty case is mapped
to `None`.) -/
def extractVariable (targets : List PyExpr) : PyVariable :=
  match targets with
  | [] => .noneV
  | t :: _ =>
      match t with
      | .tupleE elts => .tupleV (unparseList elts)
      | .listE elts => .tupleV (unparseList elts)
      | .name id => if id == "_" then .noneV else .nameV id
      | _ => .noneV

/-- The call dict produced for one walked statement, if any: the
`if isinstance(node, ast.Assign) and isinstance(node.value, ast.Call)`
and `elif isinstance(node, ast.Expr) and isinstance(node.value, ast.Call)`
branches of `extract_python_details`. -/
def extractLine : RawStmt → Option CallLine
  | .assign targets value =>
      match value with
      | .call f args kws =>
          some { var := extractVariable targets
                 function := unparse f
                 args := unparseList args
                 kwargs := kws.map fun kv => (kv.1, unparse kv.2) }
      | _ => none
  | .exprS value =>
      match value with
      | .call f args kws =>
          some { var := .noneV
                 function := unparse f
                 args := unparseList args
                 kwargs := kws.map fun kv => (kv.1, unparse kv.2) }
      | _ => none
  | _ => none

/-- The `variables` entries produced for one walked statement: the
`elif isinstance(node, ast.Assign)` branch (taken only when the value is
not a `Call`), one entry per `Name` target, with the constant's value
when the right-hand side is a `Constant` and `None` otherwise. -/
def extractVars : RawStmt → List (String × Option PyLit)
  | .assign targets value =>
      match value with
      | .call _ _ _ => []
      | _ =>
          targets.filterMap fun t =>
            match t with
            | .name id =>
                some (id, match value with
                          | .const l => some l
                          | _ => none)
            | _ => none
  | _ => []

/-- `verify_helpers.extract_python_details` (lines 75–131): walk every
node of the tree with `ast.walk`, collecting the call dicts (`lines`) and
the constant-assignment entries (`variables`). -/
def extract_python_details (moduleBody : List RawStmt) :
    List CallLine × List (String × Option PyLit) :=
  ((ast_walk moduleBody).filterMap extractLine,
   ((ast_walk moduleBody).map extractVars).flatten)

/-- `verify_helpers.find_function_call` (lines 134–139): the extracted
dicts whose `'function'` entry equals the requested name, in order. -/
def find_function_call (lines : List CallLine) (function_name : String) :
    List CallLine :=
  lines.filter fun line => line.function == function_name

/-! ## The call specification matcher (`validator.py`) -/

/-- `validator.FunctionCallSpec` (defaults in the source:
`expected_variable_count=None`, `allow_assignment=True`, `max_calls=1`). -/
structure FunctionCallSpec where
  function_name : String
  expected_args : List String
  expected_kwargs : List (String × String)
  expected_variable_count : Option Nat
  allow_assignment : Bool
  max_calls : Nat
deriving Repr, DecidableEq

/-- Python dict lookup on a kwargs mapping. -/
def dictLookup (d : List (String × String)) (k : String) : Option String :=
  (d.find? fun kv => kv.1 == k).map Prod.snd

/-- Python `dict == dict` on kwargs mappings: same keys, same values,
order-insensitive. -/
def dictEq (a b : List (String × String)) : Bool :=
  (a.all fun kv => dictLookup b kv.1 == some kv.2) &&
    (b.all fun kv => dictLookup a kv.1 == some kv.2)

/-- The assignment-permission and argument checks of
`CodeValidator._validate_function_call` (validator.py lines 85–94),
reached after the `expected_variable_count` checks pass:
fail when assignment is forbidden but present; fail when the positional
args differ from the expectation unless the call has no positional args
and its kwargs equal the expected kwargs; otherwise pass.
(The source then records assigned variable names into
`self.variables`; that bookkeeping does not affect the verdict pair
modelled here.) -/
def assignment_and_args_check (call : CallLine) (step : String)
    (spec : FunctionCallSpec) : Bool × String :=
  if spec.allow_assignment = false ∧ call.var ≠ PyVariable.noneV then
    (false, spec.function_name ++ "() should not be assigned to a variable in "
      ++ step ++ ".")
  else if call.args ≠ spec.expected_args ∧
      ¬(call.args = [] ∧ dictEq call.kwargs spec.expected_kwargs = true) then
    (false, "Incorrect parameters for " ++ spec.function_name ++ "() in "
      ++ step ++ ".")
  else (true, "")

/-- The `expected_variable_count` checks of
`CodeValidator._validate_function_call` (validator.py lines 77–83),
followed by `assignment_and_args_check`. -/
def validate_first_call (call : CallLine) (step : String)
    (spec : FunctionCallSpec) : Bool × String :=
  match spec.expected_variable_count with
  | some n =>
      match call.var with
      | .noneV =>
          (false, spec.function_name ++ "() result must be assigned in "
            ++ step ++ ".")
      | .tupleV vs =>
          if vs.length ≠ n then
            (false, spec.function_name ++ "() should assign to " ++ toString n
              ++ " variables in " ++ step ++ ".")
          else assignment_and_args_check call step spec
      | .nameV _ =>
          if n ≠ 1 then
            (false, spec.function_name ++ "() should assign to a single variable in "
              ++ step ++ ".")
          else assignment_and_args_check call step spec
  | none => assignment_and_args_check call step spec

/-- `CodeValidator._validate_function_call` (validator.py lines 65–94):
find the calls to `spec.function_name`; fail "not called" when there are
none; fail "should be called only once" when there are more than
`spec.max_calls`; otherwise judge `function_calls[0]` alone. -/
def validate_function_call (lines : List CallLine) (step : String)
    (spec : FunctionCallSpec) : Bool × String :=
  match find_function_call lines spec.function_name with
  | [] => (false, spec.function_name ++ "() is not called in " ++ step ++ ".")
  | call :: rest =>
      if (call :: rest).length > spec.max_calls then
        (false, spec.function_name ++ "() should be called only once in "
          ++ step ++ ".")
      else validate_first_call call step spec

/-! ## The validation sequencer -/

/-- The printed outcome of one executed step. -/
inductive StepOutcome where
  | passed
  | failed (msg : String)
deriving Repr, DecidableEq

/-- `utils.run_verification` (utils.py lines 32–49): run the checks in
order; print `Step i Passed` on success; on the first failure print
`Step i Failed` with the diagnostic and `sys.exit(1)` — nothing after it
runs.  A check function is modelled by the `(is_correct, error_msg)` pair
it would return; the returned list holds one outcome per check actually
executed, and the `Bool` is whether the flag-printing success path was
reached. -/
def run_verification : List (Bool × String) → List StepOutcome × Bool
  | [] => ([], true)
  | (is_correct, error_msg) :: rest =>
      if is_correct then
        let r := run_verification rest
        (.passed :: r.1, r.2)
      else ([.failed error_msg], false)

/-- `CodeValidator.validate_steps` (validator.py lines 107–116): run
`_validate_function_call` for each `(step_name, spec)` pair in order,
printing each executed step's result and exiting on the first failure. -/
def validate_steps (lines : List CallLine) :
    List (String × FunctionCallSpec) → List StepOutcome × Bool
  | [] => ([], true)
  | (step_name, spec) :: rest =>
      match validate_function_call lines step_name spec with
      | (true, _) =>
          let r := validate_steps lines rest
          (.passed :: r.1, r.2)
      | (false, msg) => ([.failed msg], false)

/-! ## Helper lemmas -/

/-- A statement without nested bodies is walked alone. -/
theorem ast_walk_leaf (s : RawStmt) (h : childStmts s = []) : ast_walk [s] = [s] := by
  rw [ast_walk_cons, h]
  simp [ast_walk_nil]

/-- `find_import_from_statement` is the first match of `importFromMatches`. -/
theorem find_import_from_statement_eq_find? (statements : List Statement)
    (module_name : String) (submodules : List String) (al : Option String) :
    find_import_from_statement statements module_name submodules al
      = statements.find? (importFromMatches module_name submodules al) := by
  induction statements with
  | nil => rfl
  | cons s rest ih =>
      by_cases h : importFromMatches module_name submodules al s
      · simp [find_import_from_statement, h, List.find?_cons_of_pos]
      · simp only [Bool.not_eq_true] at h
        simp [find_import_from_statement, h, List.find?_cons_of_neg, ih]

/-- Updating a variable makes its lookup return the new value. -/
theorem lookupVar_updateVar (vars : List (String × PyVal)) (k : String) (v : PyVal) :
    lookupVar (updateVar vars k v) k = some v := by
  induction vars with
  | nil => simp [updateVar, lookupVar]
  | cons p rest ih =>
      by_cases h : p.1 == k
      · simp [updateVar, lookupVar, h]
      · simp only [Bool.not_eq_true] at h
        simp [updateVar, lookupVar, h, ih]

mutual

/-- If an expression mentions a name bound neither in the locals mapping
nor in the builtin namespace, its evaluation raises. -/
theorem evalExpr_unbound (env : List (String × PyVal)) :
    ∀ (e : PyExpr) (n : String), n ∈ freeNames e → lookupVar env n = none →
      lookupBuiltin n = none → ∃ msg, evalExpr env e = Except.error msg := by
  intro e n hmem hv hb
  cases e with
  | const l => simp [freeNames] at hmem
  | name id =>
      simp [freeNames] at hmem
      subst hmem
      exact ⟨"name " ++ n ++ " is not defined", by simp [evalExpr, hv, hb]⟩
  | attr value a =>
      simp only [freeNames] at hmem
      obtain ⟨msg, hmsg⟩ := evalExpr_unbound env value n hmem hv hb
      exact ⟨msg, by simp [evalExpr, hmsg]⟩
  | binop op l r =>
      simp only [freeNames, List.mem_append] at hmem
      rcases hmem with h | h
      · obtain ⟨msg, hmsg⟩ := evalExpr_unbound env l n h hv hb
        exact ⟨msg, by simp [evalExpr, hmsg]⟩
      · cases he : evalExpr env l with
        | error msg => exact ⟨msg, by simp [evalExpr, he]⟩
        | ok v =>
            obtain ⟨msg, hmsg⟩ := evalExpr_unbound env r n h hv hb
            exact ⟨msg, by simp [evalExpr, he, hmsg]⟩
  | call func args keywords =>
      simp only [freeNames, List.mem_append] at hmem
      rcases hmem with (h | h) | h
      · obtain ⟨msg, hmsg⟩ := evalExpr_unbound env func n h hv hb
        exact ⟨msg, by simp [evalExpr, hmsg]⟩
      · cases he : evalExpr env func with
        | error msg => exact ⟨msg, by simp [evalExpr, he]⟩
        | ok v =>
            obtain ⟨msg, hmsg⟩ := evalList_unbound env args n h hv hb
            exact ⟨msg, by simp [evalExpr, he, hmsg]⟩
      · cases he : evalExpr env func with
        | error msg => exact ⟨msg, by simp [evalExpr, he]⟩
        | ok v =>
            cases ha : evalList env args with
            | error msg => exact ⟨msg, by simp [evalExpr, he, ha]⟩
            | ok vs =>
                cases keywords with
                | nil => simp [freeNamesKw] at h
                | cons kv rest =>
                    exact ⟨"keyword arguments outside modelled fragment",
                      by simp [evalExpr, he, ha]⟩
  | tupleE elts =>
      simp only [freeNames] at hmem
      obtain ⟨msg, hmsg⟩ := evalList_unbound env elts n hmem hv hb
      exact ⟨msg, by simp [evalExpr, hmsg]⟩
  | listE elts =>
      simp only [freeNames] at hmem
      obtain ⟨msg, hmsg⟩ := evalList_unbound env elts n hmem hv hb
      exact ⟨msg, by simp [evalExpr, hmsg]⟩

/-- List version of `evalExpr_unbound`. -/
theorem evalList_unbound (env : List (String × PyVal)) :
    ∀ (l : List PyExpr) (n : String), n ∈ freeNamesList l → lookupVar env n = none →
      lookupBuiltin n = none → ∃ msg, evalList env l = Except.error msg := by
  intro l n hmem hv hb
  cases l with
  | nil => simp [freeNamesList] at hmem
  | cons e rest =>
      simp only [freeNamesList, List.mem_append] at hmem
      rcases hmem with h | h
      · obtain ⟨msg, hmsg⟩ := evalExpr_unbound env e n h hv hb
        exact ⟨msg, by simp [evalList, hmsg]⟩
      · cases he : evalExpr env e with
        | error msg => exact ⟨msg, by simp [evalList, he]⟩
        | ok v =>
            obtain ⟨msg, hmsg⟩ := evalList_unbound env rest n h hv hb
            exact ⟨msg, by simp [evalList, he, hmsg]⟩

end

/-- `run_verification` under a prefix of passing checks followed by a
failing one: the outcome is fixed regardless of what follows the failure. -/
theorem run_verification_fail_fast (pre : List (Bool × String)) (msg : String)
    (post : List (Bool × String)) (hpre : ∀ c ∈ pre, c.1 = true) :
    run_verification (pre ++ (false, msg) :: post)
      = (pre.map (fun _ => StepOutcome.passed) ++ [StepOutcome.failed msg], false) := by
  induction pre with
  | nil => simp [run_verification]
  | cons c rest ih =>
      obtain ⟨b, m⟩ := c
      have hc : b = true := hpre (b, m) (List.mem_cons_self _ _)
      subst hc
      simp [run_verification, ih fun x hx => hpre x (List.mem_cons_of_mem _ hx)]

/-- `validate_steps` under a prefix of passing steps followed by a failing
one: the outcome is fixed regardless of what follows the failure. -/
theorem validate_steps_fail_fast (lines : List CallLine)
    (pre : List (String × FunctionCallSpec)) (nm : String) (spec : FunctionCallSpec)
    (post : List (String × FunctionCallSpec))
    (hpre : ∀ p ∈ pre, (validate_function_call lines p.1 p.2).1 = true)
    (hfail : (validate_function_call lines nm spec).1 = false) :
    validate_steps lines (pre ++ (nm, spec) :: post)
      = (pre.map (fun _ => StepOutcome.passed)
          ++ [StepOutcome.failed (validate_function_call lines nm spec).2], false) := by
  induction pre with
  | nil =>
      rcases hr : validate_function_call lines nm spec with ⟨b, m⟩
      rw [hr] at hfail
      simp at hfail
      subst hfail
      simp [validate_steps, hr]
  | cons p rest ih =>
      obtain ⟨pn, ps⟩ := p
      have hp : (validate_function_call lines pn ps).1 = true :=
        hpre (pn, ps) (List.mem_cons_self _ _)
      rcases hv : validate_function_call lines pn ps with ⟨b, m⟩
      rw [hv] at hp
      simp at hp
      subst hp
      simp [validate_steps, hv, ih fun x hx => hpre x (List.mem_cons_of_mem _ hx)]

/-- Characterization of the argument check: once the variable-count and
assignment-permission checks are vacuous, the verdict passes exactly when
the positional args match, or the call has no positional args and its
kwargs equal the expected kwargs. -/
theorem validate_first_call_args_iff (call : CallLine) (step : String)
    (spec : FunctionCallSpec) (h1 : spec.expected_variable_count = none)
    (h2 : spec.allow_assignment = true) :
    (validate_first_call call step spec).1 = true ↔
      (call.args = spec.expected_args ∨
        (call.args = [] ∧ dictEq call.kwargs spec.expected_kwargs = true)) := by
  simp only [validate_first_call, h1]
  rw [assignment_and_args_check, if_neg (by simp [h2])]
  by_cases hargs : call.args = spec.expected_args
  · rw [if_neg (by tauto)]
    simp [hargs]
  · by_cases hkw : call.args = [] ∧ dictEq call.kwargs spec.expected_kwargs = true
    · rw [if_neg (by tauto)]
      simp [hkw]
    · rw [if_pos (by tauto)]
      simp only [Bool.false_eq_true, false_iff]
      tauto

/-! ## The claims -/

/-- **C1** (code bug).  The claim states that normalization is total and
never raises for any supported raw kind — in particular for a bare call
expression.  In the code, `StatementParser._parse_function_call` invokes
`FunctionCallStatement(func=func, args=args, kwargs=kwargs)`, but the
`FunctionCallStatement` dataclass of `datatypes.py` declares only the
fields `func` and `args`; the constructor therefore rejects the `kwargs`
keyword and normalizing the bare call `f()` raises `TypeError` instead of
returning a `Statement`. -/
theorem C1_bare_call_normalization_raises :
    process_statement (RawStmt.exprS (PyExpr.call (PyExpr.name "f") [] []))
      = Except.error (PyErr.typeError
          "FunctionCallStatement.__init__() got an unexpected keyword argument: kwargs")
    ∧ dataclassAccepts functionCallStatementFields parseFunctionCallPassedKwargs = false :=
  ⟨rfl, rfl⟩

/-- **C2** (code bug).  The claim states that `a, b = f()` normalizes to an
`Assign` with flattened targets `["a", "b"]` and a nested `Call` value.
The target flattening of `_parse_assign_statement` does produce
`["a", "b"]`, but building the nested `Call` record goes through the same
broken `FunctionCallStatement(..., kwargs=...)` constructor call as in C1,
so normalizing the whole assignment raises `TypeError` instead of
returning the `Assign` statement. -/
theorem C2_tuple_unpack_assignment_raises :
    assignTargets [PyExpr.tupleE [PyExpr.name "a", PyExpr.name "b"]] = ["a", "b"]
    ∧ process_statement
        (RawStmt.assign [PyExpr.tupleE [PyExpr.name "a", PyExpr.name "b"]]
          (PyExpr.call (PyExpr.name "f") [] []))
      = Except.error (PyErr.typeError
          "FunctionCallStatement.__init__() got an unexpected keyword argument: kwargs") :=
  ⟨rfl, rfl⟩

/-- **C3** (counterexample).  The claim states that a right-hand side that
performs a call, or references any name outside the accumulating
environment, is recorded as the `Unresolvable` sentinel.  But the
resolver evaluates with `eval(code, {}, variables)`, and CPython
populates the empty globals dict with `__builtins__`: for the source line
`x = abs(-5)` the call to the builtin `abs` — a name not bound in the
(empty) environment — succeeds and records the computed value `5`, not
the sentinel. -/
theorem C3_resolver_builtin_call_counterexample :
    retrieve_variable_values
        [RawStmt.assign [PyExpr.name "x"]
          (PyExpr.call (PyExpr.name "abs") [PyExpr.const (PyLit.intL (-5))] [])]
      = [("x", PyVal.int 5)]
    ∧ PyVal.beq (PyVal.int 5) unresolvableSentinel = false := by
  constructor
  · rw [retrieve_variable_values,
      ast_walk_leaf (RawStmt.assign [PyExpr.name "x"]
        (PyExpr.call (PyExpr.name "abs") [PyExpr.const (PyLit.intL (-5))] [])) rfl]
    rfl
  · rfl

/-- **C3** (amended).  The resolver evaluates a non-literal right-hand
side with the accumulating environment as local bindings *and the builtin
namespace reachable through `eval`'s globals*; whenever the expression
mentions a name bound neither in the environment nor among the builtins,
evaluation raises and the resolver records the `Unresolvable` sentinel
for the assigned variable. -/
theorem C3_resolver_unbound_name_amended
    (vars : List (String × PyVal)) (tid : String) (value : PyExpr) (n : String)
    (hlit : literal_eval value = none)
    (hfree : n ∈ freeNames value)
    (henv : lookupVar vars n = none)
    (hbuiltin : lookupBuiltin n = none) :
    lookupVar (resolveAssign vars [PyExpr.name tid] value) tid
      = some unresolvableSentinel := by
  obtain ⟨msg, hmsg⟩ := evalExpr_unbound vars value n hfree henv hbuiltin
  simp [resolveAssign, hlit, hmsg, lookupVar_updateVar]

/-- Witness for C3 (amended): `x = undefined_name` resolves `x` to the
sentinel. -/
theorem C3_resolver_unbound_name_amended_witness :
    literal_eval (PyExpr.name "undefined_name") = none
    ∧ "undefined_name" ∈ freeNames (PyExpr.name "undefined_name")
    ∧ lookupVar [] "undefined_name" = none
    ∧ lookupBuiltin "undefined_name" = none
    ∧ lookupVar (resolveAssign [] [PyExpr.name "x"] (PyExpr.name "undefined_name")) "x"
        = some unresolvableSentinel :=
  ⟨rfl, by simp [freeNames], rfl, rfl,
    C3_resolver_unbound_name_amended [] "x" (PyExpr.name "undefined_name")
      "undefined_name" rfl (by simp [freeNames]) rfl rfl⟩

/-! ### C4 -/

/-- The spec of claim C4: `args=[]`, `kwargs={"x": "1"}`. -/
def c4spec : FunctionCallSpec :=
  { function_name := "f", expected_args := [], expected_kwargs := [("x", "1")]
    expected_variable_count := none, allow_assignment := true, max_calls := 1 }

/-- Extracted call dicts of a file containing exactly `f(x=1)`. -/
def c4kwLines : List CallLine :=
  (extract_python_details
    [RawStmt.exprS (PyExpr.call (PyExpr.name "f") [] [("x", PyExpr.const (PyLit.intL 1))])]).1

/-- Extracted call dicts of a file containing exactly `f(1)`. -/
def c4posLines : List CallLine :=
  (extract_python_details
    [RawStmt.exprS (PyExpr.call (PyExpr.name "f") [PyExpr.const (PyLit.intL 1)] [])]).1

theorem c4kwLines_eval :
    c4kwLines = [⟨PyVariable.noneV, "f", [], [("x", "1")]⟩] := by
  have hw : ast_walk
      [RawStmt.exprS (PyExpr.call (PyExpr.name "f") [] [("x", PyExpr.const (PyLit.intL 1))])]
      = [RawStmt.exprS (PyExpr.call (PyExpr.name "f") [] [("x", PyExpr.const (PyLit.intL 1))])] := by
    simp [ast_walk_cons, ast_walk_nil, childStmts]
  unfold c4kwLines extract_python_details
  rw [hw]
  decide

theorem c4posLines_eval :
    c4posLines = [⟨PyVariable.noneV, "f", ["1"], []⟩] := by
  have hw : ast_walk
      [RawStmt.exprS (PyExpr.call (PyExpr.name "f") [PyExpr.const (PyLit.intL 1)] [])]
      = [RawStmt.exprS (PyExpr.call (PyExpr.name "f") [PyExpr.const (PyLit.intL 1)] [])] := by
    simp [ast_walk_cons, ast_walk_nil, childStmts]
  unfold c4posLines extract_python_details
  rw [hw]
  decide

/-- **C4** (confirmed).  The matcher compares positional args by exact
ordered equality; when they differ it accepts only a call with no
positional args whose kwargs equal the expectation exactly.  In
particular, the spec `args=[]`, `kwargs={"x": "1"}` passes for `f(x=1)`
and fails, with the incorrect-parameters verdict, for `f(1)`. -/
theorem C4_exact_args_or_kwarg_equivalence :
    (∀ (call : CallLine) (step : String) (spec : FunctionCallSpec),
      spec.expected_variable_count = none → spec.allow_assignment = true →
        ((validate_first_call call step spec).1 = true ↔
          (call.args = spec.expected_args ∨
            (call.args = [] ∧ dictEq call.kwargs spec.expected_kwargs = true))))
    ∧ validate_function_call c4kwLines "step 1" c4spec = (true, "")
    ∧ validate_function_call c4posLines "step 1" c4spec
        = (false, "Incorrect parameters for f() in step 1.") := by
  refine ⟨validate_first_call_args_iff, ?_, ?_⟩
  · rw [c4kwLines_eval]
    decide
  · rw [c4posLines_eval]
    decide

/-- Witness for C4, discharging its hypotheses at the `f(x=1)` call dict. -/
theorem C4_exact_args_or_kwarg_equivalence_witness :
    c4spec.expected_variable_count = none ∧ c4spec.allow_assignment = true ∧
      ((validate_first_call ⟨PyVariable.noneV, "f", [], [("x", "1")]⟩ "step 1" c4spec).1 = true ↔
        ((⟨PyVariable.noneV, "f", [], [("x", "1")]⟩ : CallLine).args = c4spec.expected_args ∨
          ((⟨PyVariable.noneV, "f", [], [("x", "1")]⟩ : CallLine).args = [] ∧
            dictEq (⟨PyVariable.noneV, "f", [], [("x", "1")]⟩ : CallLine).kwargs
              c4spec.expected_kwargs = true))) :=
  ⟨rfl, rfl,
    C4_exact_args_or_kwarg_equivalence.1 ⟨PyVariable.noneV, "f", [], [("x", "1")]⟩
      "step 1" c4spec rfl rfl⟩

/-! ### C5 -/

/-- The spec of claim C5: `max_calls=1`, matching empty args/kwargs. -/
def c5spec : FunctionCallSpec :=
  { function_name := "f", expected_args := [], expected_kwargs := []
    expected_variable_count := none, allow_assignment := true, max_calls := 1 }

/-- Extracted call dicts of a file containing two bare calls `f()`. -/
def c5twoLines : List CallLine :=
  (extract_python_details
    [RawStmt.exprS (PyExpr.call (PyExpr.name "f") [] []),
     RawStmt.exprS (PyExpr.call (PyExpr.name "f") [] [])]).1

/-- Extracted call dicts of a file containing one bare call `f()`. -/
def c5oneLines : List CallLine :=
  (extract_python_details [RawStmt.exprS (PyExpr.call (PyExpr.name "f") [] [])]).1

theorem c5twoLines_eval :
    c5twoLines = [⟨PyVariable.noneV, "f", [], []⟩, ⟨PyVariable.noneV, "f", [], []⟩] := by
  have hw : ast_walk
      [RawStmt.exprS (PyExpr.call (PyExpr.name "f") [] []),
       RawStmt.exprS (PyExpr.call (PyExpr.name "f") [] [])]
      = [RawStmt.exprS (PyExpr.call (PyExpr.name "f") [] []),
         RawStmt.exprS (PyExpr.call (PyExpr.name "f") [] [])] := by
    simp [ast_walk_cons, ast_walk_nil, childStmts]
  unfold c5twoLines extract_python_details
  rw [hw]
  decide

theorem c5oneLines_eval :
    c5oneLines = [⟨PyVariable.noneV, "f", [], []⟩] := by
  have hw : ast_walk [RawStmt.exprS (PyExpr.call (PyExpr.name "f") [] [])]
      = [RawStmt.exprS (PyExpr.call (PyExpr.name "f") [] [])] := by
    simp [ast_walk_cons, ast_walk_nil, childStmts]
  unfold c5oneLines extract_python_details
  rw [hw]
  decide

/-- **C5** (confirmed).  With no call found the matcher fails with the
not-called verdict; with strictly more candidates than `max_calls` it
fails with the called-too-many-times verdict; otherwise it judges exactly
the first candidate.  Concretely, `max_calls=1` fails against two `f()`
calls and passes against exactly one matching call. -/
theorem C5_max_calls_and_first_candidate :
    (∀ (lines : List CallLine) (step : String) (spec : FunctionCallSpec),
      find_function_call lines spec.function_name = [] →
        validate_function_call lines step spec
          = (false, spec.function_name ++ "() is not called in " ++ step ++ "."))
    ∧ (∀ (lines : List CallLine) (step : String) (spec : FunctionCallSpec)
        (call : CallLine) (rest : List CallLine),
        find_function_call lines spec.function_name = call :: rest →
        (call :: rest).length > spec.max_calls →
        validate_function_call lines step spec
          = (false, spec.function_name ++ "() should be called only once in " ++ step ++ "."))
    ∧ (∀ (lines : List CallLine) (step : String) (spec : FunctionCallSpec)
        (call : CallLine) (rest : List CallLine),
        find_function_call lines spec.function_name = call :: rest →
        ¬((call :: rest).length > spec.max_calls) →
        validate_function_call lines step spec = validate_first_call call step spec)
    ∧ validate_function_call c5twoLines "step 1" c5spec
        = (false, "f() should be called only once in step 1.")
    ∧ validate_function_call c5oneLines "step 1" c5spec = (true, "") := by
  refine ⟨?_, ?_, ?_, ?_, ?_⟩
  · intro lines step spec h
    simp [validate_function_call, h]
  · intro lines step spec call rest h hlen
    simp only [validate_function_call, h]
    rw [if_pos hlen]
  · intro lines step spec call rest h hlen
    simp only [validate_function_call, h]
    rw [if_neg hlen]
  · rw [c5twoLines_eval]
    decide
  · rw [c5oneLines_eval]
    decide

/-- Witness for C5, discharging its hypotheses at concrete candidate lists. -/
theorem C5_max_calls_and_first_candidate_witness :
    find_function_call [] c5spec.function_name = []
    ∧ validate_function_call [] "s" c5spec
        = (false, c5spec.function_name ++ "() is not called in " ++ "s" ++ ".")
    ∧ find_function_call [(⟨PyVariable.noneV, "f", [], []⟩ : CallLine)] c5spec.function_name
        = [⟨PyVariable.noneV, "f", [], []⟩]
    ∧ ¬(([(⟨PyVariable.noneV, "f", [], []⟩ : CallLine)]).length > c5spec.max_calls)
    ∧ validate_function_call [(⟨PyVariable.noneV, "f", [], []⟩ : CallLine)] "s" c5spec
        = validate_first_call ⟨PyVariable.noneV, "f", [], []⟩ "s" c5spec :=
  ⟨rfl, C5_max_calls_and_first_candidate.1 [] "s" c5spec rfl, by decide, by decide,
    C5_max_calls_and_first_candidate.2.2.1 [⟨PyVariable.noneV, "f", [], []⟩] "s" c5spec
      ⟨PyVariable.noneV, "f", [], []⟩ [] (by decide) (by decide)⟩

/-! ### C6 -/

/-- **C6** (confirmed).  Both sequencers (`utils.run_verification` and
`CodeValidator.validate_steps`) run steps in order and halt at the first
failing verdict: the reported outcomes are exactly one `passed` per
earlier step plus the single `failed`, and the result does not depend on
the steps after the failure — they are never examined. -/
theorem C6_fail_fast_sequencing :
    (∀ (pre : List (Bool × String)) (msg : String) (post : List (Bool × String)),
      (∀ c ∈ pre, c.1 = true) →
      run_verification (pre ++ (false, msg) :: post)
        = (pre.map (fun _ => StepOutcome.passed) ++ [StepOutcome.failed msg], false))
    ∧ (∀ (lines : List CallLine) (pre : List (String × FunctionCallSpec))
        (nm : String) (spec : FunctionCallSpec) (post : List (String × FunctionCallSpec)),
        (∀ p ∈ pre, (validate_function_call lines p.1 p.2).1 = true) →
        (validate_function_call lines nm spec).1 = false →
        validate_steps lines (pre ++ (nm, spec) :: post)
          = (pre.map (fun _ => StepOutcome.passed)
              ++ [StepOutcome.failed (validate_function_call lines nm spec).2], false)) :=
  ⟨run_verification_fail_fast, validate_steps_fail_fast⟩

/-- Witness for C6: three checks with the second failing — step 3 does
not influence the outcome, and the report is `passed, failed`. -/
theorem C6_fail_fast_sequencing_witness :
    (∀ c ∈ [((true : Bool), "")], c.1 = true)
    ∧ run_verification [(true, ""), (false, "boom"), (true, "")]
        = ([StepOutcome.passed, StepOutcome.failed "boom"], false) :=
  ⟨by decide,
    C6_fail_fast_sequencing.1 [(true, "")] "boom" [(true, "")] (by decide)⟩

/-! ### C7 -/

/-- The statement `from m import a, b`, normalized. -/
def c7import : Statement := Statement.importFrom "m" ["a", "b"] none 0

/-- The statement `from m import b, a`, normalized. -/
def c7importSwapped : Statement := Statement.importFrom "m" ["b", "a"] none 0

/-- **C7** (confirmed).  `find_import_from_statement` returns the first
statement (in source order) whose module matches exactly, whose names
equal the requested submodules *as sets*, and whose alias matches
exactly; `from m import a, b` matches `submodules=["b","a"]` but not
`submodules=["a"]`. -/
theorem C7_find_import_from_set_semantics :
    (∀ (statements : List Statement) (module_name : String)
        (submodules : List String) (al : Option String),
      find_import_from_statement statements module_name submodules al
        = statements.find? (importFromMatches module_name submodules al))
    ∧ find_import_from_statement [c7import] "m" ["b", "a"] none = some c7import
    ∧ find_import_from_statement [c7import] "m" ["a"] none = none
    ∧ find_import_from_statement [c7import, c7importSwapped] "m" ["a", "b"] none
        = some c7import :=
  ⟨find_import_from_statement_eq_find?, rfl, rfl, rfl⟩

/-! ### C8 -/

/-- A file whose only call to `f` sits inside the body of `def g(): f()`. -/
def c8nested : List RawStmt :=
  [RawStmt.funcDef "g" [] [RawStmt.exprS (PyExpr.call (PyExpr.name "f") [] [])]]

/-- **C8** (counterexample).  The claim states that the call-finding
operation supplying the matcher's candidates considers only top-level
statements, so that a call nested inside a function body is not among
the candidates.  But the matcher's candidates come from
`extract_python_details`, which traverses the tree with `ast.walk`: for a
file whose only `f()` sits inside `def g(): ...`, the candidate list is
nonempty — it contains exactly that nested call. -/
theorem C8_nested_call_candidate_counterexample :
    find_function_call (extract_python_details c8nested).1 "f"
      = [⟨PyVariable.noneV, "f", [], []⟩] := by
  have hw : ast_walk c8nested
      = [RawStmt.funcDef "g" [] [RawStmt.exprS (PyExpr.call (PyExpr.name "f") [] [])],
         RawStmt.exprS (PyExpr.call (PyExpr.name "f") [] [])] := by
    simp [c8nested, ast_walk_cons, ast_walk_nil, childStmts]
  unfold extract_python_details
  rw [hw]
  decide

/-- **C8** (amended).  The call-finding operation that supplies the
matcher's candidates (`extract_python_details` + `find_function_call`)
walks every node of the tree, so a bare call nested inside any
`body`/`orelse` block (function body, class body, loop body, if/else
body) *is* among the returned candidates.  Only the statement-forest
query `utils.find_function_calls` is restricted to the list it is given:
its results are members of that top-level list, and a call nested inside
a normalized `FunctionDefStatement` body is not returned. -/
theorem C8_matcher_candidates_include_nested_calls :
    (∀ (moduleBody : List RawStmt) (s : RawStmt) (f : String)
        (args : List PyExpr) (kws : List (String × PyExpr)),
      s ∈ moduleBody →
      RawStmt.exprS (PyExpr.call (PyExpr.name f) args kws) ∈ childStmts s →
      find_function_call (extract_python_details moduleBody).1 f ≠ [])
    ∧ (∀ (statements : List Statement) (function_name : String),
        ∀ st ∈ find_function_calls statements function_name, st ∈ statements)
    ∧ find_function_calls
        [Statement.funcDef "g" [] [Statement.funcCall ⟨"f", []⟩]] "f" = [] := by
  refine ⟨?_, ?_, rfl⟩
  · intro m s f args kws hs hc hempty
    have hwalk : RawStmt.exprS (PyExpr.call (PyExpr.name f) args kws) ∈ ast_walk m :=
      child_mem_ast_walk m s _ hs hc
    have hline : extractLine (RawStmt.exprS (PyExpr.call (PyExpr.name f) args kws))
        = some ⟨PyVariable.noneV, f, unparseList args,
                kws.map fun kv => (kv.1, unparse kv.2)⟩ := rfl
    have hmem : (⟨PyVariable.noneV, f, unparseList args,
        kws.map fun kv => (kv.1, unparse kv.2)⟩ : CallLine)
        ∈ (extract_python_details m).1 :=
      List.mem_filterMap.mpr ⟨_, hwalk, hline⟩
    have hfind : (⟨PyVariable.noneV, f, unparseList args,
        kws.map fun kv => (kv.1, unparse kv.2)⟩ : CallLine)
        ∈ find_function_call (extract_python_details m).1 f :=
      List.mem_filter.mpr ⟨hmem, by simp⟩
    rw [hempty] at hfind
    exact absurd hfind (List.not_mem_nil _)
  · intro statements function_name st hst
    exact (List.mem_filter.mp hst).1

/-- Witness for C8 (amended), at the concrete nested file `def g(): f()`. -/
theorem C8_matcher_candidates_include_nested_calls_witness :
    RawStmt.funcDef "g" [] [RawStmt.exprS (PyExpr.call (PyExpr.name "f") [] [])] ∈ c8nested
    ∧ RawStmt.exprS (PyExpr.call (PyExpr.name "f") [] [])
        ∈ childStmts (RawStmt.funcDef "g" [] [RawStmt.exprS (PyExpr.call (PyExpr.name "f") [] [])])
    ∧ find_function_call (extract_python_details c8nested).1 "f" ≠ [] :=
  ⟨by simp [c8nested], by simp [childStmts],
    C8_matcher_candidates_include_nested_calls.1 c8nested
      (RawStmt.funcDef "g" [] [RawStmt.exprS (PyExpr.call (PyExpr.name "f") [] [])])
      "f" [] [] (by simp [c8nested]) (by simp [childStmts])⟩

/-! ### C9 -/

/-- **C9** (counterexample).  The claim states that the resolver's output
distinguishes the `Unresolvable` sentinel from every real resolvable
value.  But the sentinel is itself the *string*
`"Unresolvable dynamic value"`: the file `x = "Unresolvable dynamic value"`
(a perfectly resolvable string literal) produces the same variable table
as a file whose right-hand side genuinely cannot be evaluated — the
output does not distinguish the two. -/
theorem C9_sentinel_collision_counterexample :
    retrieve_variable_values
        [RawStmt.assign [PyExpr.name "x"]
          (PyExpr.const (PyLit.strL "Unresolvable dynamic value"))]
      = retrieve_variable_values
          [RawStmt.assign [PyExpr.name "x"] (PyExpr.name "undefined_name")]
    ∧ retrieve_variable_values
        [RawStmt.assign [PyExpr.name "x"]
          (PyExpr.const (PyLit.strL "Unresolvable dynamic value"))]
      = [("x", unresolvableSentinel)] := by
  constructor
  · simp only [retrieve_variable_values]
    rw [ast_walk_leaf (RawStmt.assign [PyExpr.name "x"]
          (PyExpr.const (PyLit.strL "Unresolvable dynamic value"))) rfl,
        ast_walk_leaf (RawStmt.assign [PyExpr.name "x"] (PyExpr.name "undefined_name")) rfl]
    rfl
  · simp only [retrieve_variable_values]
    rw [ast_walk_leaf (RawStmt.assign [PyExpr.name "x"]
          (PyExpr.const (PyLit.strL "Unresolvable dynamic value"))) rfl]
    rfl

/-- **C9** (amended).  The sentinel is the fixed string value
`"Unresolvable dynamic value"`.  It is distinct from absence and from
every resolvable value of non-string kind (numbers, booleans, `None`,
containers), but a resolved *string* equals the sentinel exactly when it
is that text — so string values of that exact text are not
distinguishable from the sentinel. -/
theorem C9_sentinel_distinctness_amended :
    unresolvableSentinel = PyVal.str "Unresolvable dynamic value"
    ∧ (∀ n : Int, PyVal.beq (PyVal.int n) unresolvableSentinel = false)
    ∧ (∀ b : Bool, PyVal.beq (PyVal.bool b) unresolvableSentinel = false)
    ∧ PyVal.beq PyVal.pynone unresolvableSentinel = false
    ∧ (∀ elts : List PyVal, PyVal.beq (PyVal.tuple elts) unresolvableSentinel = false)
    ∧ (∀ elts : List PyVal, PyVal.beq (PyVal.list elts) unresolvableSentinel = false)
    ∧ (∀ s : String, PyVal.beq (PyVal.str s) unresolvableSentinel
        = (s == "Unresolvable dynamic value"))
    ∧ retrieve_variable_values
        [RawStmt.assign [PyExpr.name "x"] (PyExpr.const (PyLit.intL 7))]
      = [("x", PyVal.int 7)] := by
  refine ⟨rfl, fun n => rfl, fun b => rfl, rfl, fun elts => rfl, fun elts => rfl,
    fun s => rfl, ?_⟩
  simp only [retrieve_variable_values]
  rw [ast_walk_leaf (RawStmt.assign [PyExpr.name "x"] (PyExpr.const (PyLit.intL 7))) rfl]
  rfl

/-! ### C10 -/

/-- A spec requiring the call's result to be assigned to one variable. -/
def c10specExpectVar : FunctionCallSpec :=
  { function_name := "f", expected_args := [], expected_kwargs := []
    expected_variable_count := some 1, allow_assignment := true, max_calls := 1 }

/-- A spec forbidding assignment of the call's result. -/
def c10specForbidAssign : FunctionCallSpec :=
  { function_name := "f", expected_args := [], expected_kwargs := []
    expected_variable_count := none, allow_assignment := false, max_calls := 1 }

/-- Extracted call dicts of a file containing exactly `_ = f()`. -/
def c10underscoreLines : List CallLine :=
  (extract_python_details
    [RawStmt.assign [PyExpr.name "_"] (PyExpr.call (PyExpr.name "f") [] [])]).1

/-- Extracted call dicts of a file containing exactly `obj.attr = f()`. -/
def c10attrLines : List CallLine :=
  (extract_python_details
    [RawStmt.assign [PyExpr.attr (PyExpr.name "obj") "attr"]
      (PyExpr.call (PyExpr.name "f") [] [])]).1

theorem c10underscoreLines_eval :
    c10underscoreLines = [⟨PyVariable.noneV, "f", [], []⟩] := by
  have hw : ast_walk [RawStmt.assign [PyExpr.name "_"] (PyExpr.call (PyExpr.name "f") [] [])]
      = [RawStmt.assign [PyExpr.name "_"] (PyExpr.call (PyExpr.name "f") [] [])] := by
    simp [ast_walk_cons, ast_walk_nil, childStmts]
  unfold c10underscoreLines extract_python_details
  rw [hw]
  decide

theorem c10attrLines_eval :
    c10attrLines = [⟨PyVariable.noneV, "f", [], []⟩] := by
  have hw : ast_walk [RawStmt.assign [PyExpr.attr (PyExpr.name "obj") "attr"]
        (PyExpr.call (PyExpr.name "f") [] [])]
      = [RawStmt.assign [PyExpr.attr (PyExpr.name "obj") "attr"]
          (PyExpr.call (PyExpr.name "f") [] [])] := by
    simp [ast_walk_cons, ast_walk_nil, childStmts]
  unfold c10attrLines extract_python_details
  rw [hw]
  decide

/-- **C10** (confirmed).  An assignment of a call's result to the single
underscore `_`, or to a single non-name target such as `obj.attr`, is
extracted with `variable = None`.  Consequently a spec with
`expected_variable_count` set fails with the result-must-be-assigned
verdict, and a spec with `allow_assignment=False` passes — even though
the source text does assign the call's result. -/
theorem C10_underscore_and_nonname_targets :
    c10underscoreLines = [⟨PyVariable.noneV, "f", [], []⟩]
    ∧ c10attrLines = [⟨PyVariable.noneV, "f", [], []⟩]
    ∧ validate_function_call c10underscoreLines "step 1" c10specExpectVar
        = (false, "f() result must be assigned in step 1.")
    ∧ validate_function_call c10attrLines "step 1" c10specExpectVar
        = (false, "f() result must be assigned in step 1.")
    ∧ validate_function_call c10underscoreLines "step 1" c10specForbidAssign = (true, "")
    ∧ validate_function_call c10attrLines "step 1" c10specForbidAssign = (true, "") := by
  refine ⟨c10underscoreLines_eval, c10attrLines_eval, ?_, ?_, ?_, ?_⟩ <;>
    first
      | (rw [c10underscoreLines_eval]; decide)
      | (rw [c10attrLines_eval]; decide)

end PaceAITester
